import Mathlib

/-!
# Verification of the tiered cache of `feedback-dashboard`

Shallow embedding of `src/middleware/cache.js` (the `CacheService` built on
`node-cache` plus an optional redis client) and of the `cacheMiddleware`
memoizing decorator shown in `src/PERFORMANCE_OPTIMIZATION.md`.

Modelling decisions:
* JS values cached by the service are modelled by the inductive `Value`
  (JSON-style values with integer numbers).  JS truthiness is `truthy`.
* Time is a wall clock `now : Nat` in milliseconds.  `node-cache` stores a
  livetime `t = now + ttl*1000` (with `t = 0` meaning "never expires", the
  `ttl == 0` case of node-cache's `_wrap`), and its `get` treats an entry as
  absent when `t ≠ 0 ∧ t ≤ now` (lazy expiration; the periodic sweep is
  advisory only and is not modelled since `get` never depends on it).
* The redis client is `Option RedisConn`: `none` models both "no REDIS_URL"
  and "connection failed at startup" (the source resets `redisClient = null`
  in the `.catch` of `connect()`).  A connected client whose network later
  fails is `failing := true`: its awaited operations reject.
* JS exceptions from awaited redis calls are `Except.error`; state changes
  made before the throw persist, so every operation returns the new state
  alongside the `Except` result.
* On the repository's pinned node-redis v4 client (`redis ^4.6.7`,
  `createClient({url})` plus `connect()`), the v3-era method name `setex`
  used by `CacheService.set` is undefined — v4 exposes only `setEx`/`SETEX` —
  so the awaited remote write throws a TypeError whenever a client exists and
  the remote store is never populated by `set`; `get`'s promotion path is
  still live for remote entries written by other writers of the shared store.
* `JSON.stringify` / `JSON.parse` are modelled executably over `Value`
  (strings as `List Char`).
-/

/-- JSON-style values, the payloads cached by `CacheService`. -/
inductive Value where
  | vnull : Value
  | vbool : Bool → Value
  | vint : Int → Value
  | vstr : String → Value
  | varr : List Value → Value
  | vobj : List (String × Value) → Value

/-- JS truthiness of a `Value` (empty arrays and objects are truthy in JS). -/
def truthy : Value → Bool
  | .vnull => false
  | .vbool b => b
  | .vint n => n != 0
  | .vstr s => decide (s ≠ "")
  | .varr _ => true
  | .vobj _ => true

/-- The double-quote character. -/
def quoteChar : Char := Char.ofNat 34

/-- The backslash character. -/
def backslashChar : Char := Char.ofNat 92

/-- Opening curly brace character. -/
def lcurly : Char := Char.ofNat 123

/-- Closing curly brace character. -/
def rcurly : Char := Char.ofNat 125

/-- JSON string escaping of one character (quote and backslash). -/
def escapeChar (c : Char) : List Char :=
  if c = quoteChar then [backslashChar, quoteChar]
  else if c = backslashChar then [backslashChar, backslashChar]
  else [c]

/-- JSON string escaping. -/
def escapeString (cs : List Char) : List Char :=
  cs.foldr (fun c acc => escapeChar c ++ acc) []

/-- Decimal digits of a natural number (fuel-driven so it computes in the kernel). -/
def natChars (fuel n : Nat) : List Char :=
  match fuel with
  | 0 => []
  | f + 1 =>
    if n < 10 then [Char.ofNat (48 + n)]
    else natChars f (n / 10) ++ [Char.ofNat (48 + n % 10)]

/-- Decimal rendering of an integer. -/
def intChars (n : Int) : List Char :=
  if n < 0 then '-' :: natChars (n.natAbs + 1) n.natAbs
  else natChars (n.natAbs + 1) n.natAbs

/-- A JSON string literal: quote, escaped body, quote. -/
def strLitChars (s : String) : List Char :=
  quoteChar :: escapeString s.data ++ [quoteChar]

mutual

/-- `JSON.stringify` on the `Value` model, producing the character list of the
JSON text (no insignificant whitespace, as in JS `JSON.stringify`). -/
def jsonStringify : Value → List Char
  | .vnull => ['n', 'u', 'l', 'l']
  | .vbool true => ['t', 'r', 'u', 'e']
  | .vbool false => ['f', 'a', 'l', 's', 'e']
  | .vint n => intChars n
  | .vstr s => strLitChars s
  | .varr xs => '[' :: stringifyItems xs ++ [']']
  | .vobj fs => lcurly :: stringifyMembers fs ++ [rcurly]

/-- Comma-separated stringification of array elements. -/
def stringifyItems : List Value → List Char
  | [] => []
  | [x] => jsonStringify x
  | x :: y :: xs => jsonStringify x ++ ',' :: stringifyItems (y :: xs)

/-- Comma-separated stringification of object members. -/
def stringifyMembers : List (String × Value) → List Char
  | [] => []
  | [(k, v)] => strLitChars k ++ ':' :: jsonStringify v
  | (k, v) :: m :: fs => strLitChars k ++ ':' :: jsonStringify v ++ ',' :: stringifyMembers (m :: fs)

end

/-- Take the leading decimal digits of the input. -/
def takeDigits : List Char → List Char × List Char
  | [] => ([], [])
  | c :: cs =>
    if c.isDigit then
      let (ds, rest) := takeDigits cs
      (c :: ds, rest)
    else ([], c :: cs)

/-- Numeric value of a list of decimal digits. -/
def digitsToNat (ds : List Char) : Nat :=
  ds.foldl (fun a c => a * 10 + (c.toNat - 48)) 0

/-- Parse the body of a JSON string after its opening quote; returns the
unescaped characters and the rest of the input after the closing quote. -/
def parseStrBody : List Char → Except String (List Char × List Char)
  | [] => Except.error "unterminated string"
  | c :: cs =>
    if c = quoteChar then Except.ok ([], cs)
    else if c = backslashChar then
      match cs with
      | [] => Except.error "bad escape"
      | e :: cs2 =>
        if e = quoteChar ∨ e = backslashChar then
          match parseStrBody cs2 with
          | Except.ok (s, r) => Except.ok (e :: s, r)
          | Except.error m => Except.error m
        else Except.error "unsupported escape"
    else
      match parseStrBody cs with
      | Except.ok (s, r) => Except.ok (c :: s, r)
      | Except.error m => Except.error m

mutual

/-- Fuel-driven recursive-descent parser for the JSON grammar emitted by
`jsonStringify` (the only strings the cache ever stores remotely); the
model of `JSON.parse`, which throws (`Except.error`) on malformed input. -/
def parseVal (fuel : Nat) (cs : List Char) : Except String (Value × List Char) :=
  match fuel with
  | 0 => Except.error "fuel exhausted"
  | f + 1 =>
    match cs with
    | [] => Except.error "unexpected end of input"
    | c :: rest =>
      if c = 'n' then
        match rest with
        | 'u' :: 'l' :: 'l' :: r => Except.ok (Value.vnull, r)
        | _ => Except.error "bad literal"
      else if c = 't' then
        match rest with
        | 'r' :: 'u' :: 'e' :: r => Except.ok (Value.vbool true, r)
        | _ => Except.error "bad literal"
      else if c = 'f' then
        match rest with
        | 'a' :: 'l' :: 's' :: 'e' :: r => Except.ok (Value.vbool false, r)
        | _ => Except.error "bad literal"
      else if c = quoteChar then
        match parseStrBody rest with
        | Except.ok (s, r) => Except.ok (Value.vstr (String.mk s), r)
        | Except.error m => Except.error m
      else if c = '[' then
        match rest with
        | ']' :: r => Except.ok (Value.varr [], r)
        | _ => parseItems f rest []
      else if c = lcurly then
        match rest with
        | [] => Except.error "unexpected end of input"
        | r0 :: r =>
          if r0 = rcurly then Except.ok (Value.vobj [], r)
          else parseMembers f (r0 :: r) []
      else if c = '-' then
        match takeDigits rest with
        | ([], _) => Except.error "bad number"
        | (d :: ds, r) => Except.ok (Value.vint (-(digitsToNat (d :: ds) : Int)), r)
      else if c.isDigit then
        match takeDigits (c :: rest) with
        | (ds, r) => Except.ok (Value.vint (digitsToNat ds), r)
      else Except.error "unexpected character"

/-- Parse the comma-separated elements of a non-empty JSON array. -/
def parseItems (fuel : Nat) (cs : List Char) (acc : List Value) : Except String (Value × List Char) :=
  match fuel with
  | 0 => Except.error "fuel exhausted"
  | f + 1 =>
    match parseVal f cs with
    | Except.error m => Except.error m
    | Except.ok (v, r) =>
      match r with
      | ',' :: r2 => parseItems f r2 (acc ++ [v])
      | ']' :: r2 => Except.ok (Value.varr (acc ++ [v]), r2)
      | _ => Except.error "expected comma or close bracket"

/-- Parse the comma-separated members of a non-empty JSON object. -/
def parseMembers (fuel : Nat) (cs : List Char) (acc : List (String × Value)) : Except String (Value × List Char) :=
  match fuel with
  | 0 => Except.error "fuel exhausted"
  | f + 1 =>
    match cs with
    | [] => Except.error "unexpected end of input"
    | q :: rest =>
      if q = quoteChar then
        match parseStrBody rest with
        | Except.error m => Except.error m
        | Except.ok (s, r) =>
          match r with
          | ':' :: r2 =>
            match parseVal f r2 with
            | Except.error m => Except.error m
            | Except.ok (v, r3) =>
              match r3 with
              | [] => Except.error "unexpected end of input"
              | ',' :: r4 => parseMembers f r4 (acc ++ [(String.mk s, v)])
              | c2 :: r4 =>
                if c2 = rcurly then Except.ok (Value.vobj (acc ++ [(String.mk s, v)]), r4)
                else Except.error "expected comma or close brace"
          | _ => Except.error "expected colon"
      else Except.error "expected string key"

end

/-- `JSON.parse` on a whole input: parse one value and require the input to
be consumed entirely. -/
def jsonParse (cs : List Char) : Except String Value :=
  match parseVal (2 * cs.length + 2) cs with
  | Except.error m => Except.error m
  | Except.ok (v, []) => Except.ok v
  | Except.ok (_, _ :: _) => Except.error "trailing characters"

/-- Association-list lookup (the key/value maps of both stores). -/
def alistGet {α : Type} (l : List (String × α)) (k : String) : Option α :=
  match l with
  | [] => none
  | (k2, b) :: rest => if k2 = k then some b else alistGet rest k

/-- Association-list insert-or-replace. -/
def alistPut {α : Type} (l : List (String × α)) (k : String) (a : α) : List (String × α) :=
  match l with
  | [] => [(k, a)]
  | (k2, b) :: rest => if k2 = k then (k, a) :: rest else (k2, b) :: alistPut rest k a

/-- Association-list removal; removing an absent key leaves the list unchanged. -/
def alistDel {α : Type} (l : List (String × α)) (k : String) : List (String × α) :=
  match l with
  | [] => []
  | (k2, b) :: rest => if k2 = k then alistDel rest k else (k2, b) :: alistDel rest k

/-- A node-cache entry: the stored value and its livetime `expireAt`
(0 means "never expires"). -/
structure MemEntry where
  value : Value
  expireAt : Int

/-- A redis entry: the SETEX string payload and its expiry time. -/
structure RemoteEntry where
  payload : List Char
  expireAt : Int

/-- A connected redis client.  `failing = true` models a connection that was
established at startup but whose network now fails: every awaited command
rejects. -/
structure RedisConn where
  failing : Bool
  store : List (String × RemoteEntry)

/-- The whole cache state: the in-process node-cache map (`memoryCache`) and
the optional redis client (`redisClient`); `none` models both an unset
REDIS_URL and a startup connection failure, which resets the client to null. -/
structure CacheState where
  mem : List (String × MemEntry)
  redis : Option RedisConn

/-- node-cache `_wrap`: livetime 0 when `ttl = 0` (never expires), otherwise
`now + ttl * 1000` (which is in the past when ttl is negative). -/
def memLivetime (now : Nat) (ttl : Int) : Int :=
  if ttl = 0 then 0 else (now : Int) + ttl * 1000

/-- node-cache `get`: the value if the entry exists and its livetime is 0 or
still in the future (`_check`), otherwise absent (lazy expiration). -/
def memGetRaw (mem : List (String × MemEntry)) (now : Nat) (key : String) : Option Value :=
  match alistGet mem key with
  | some e => if e.expireAt = 0 ∨ (now : Int) < e.expireAt then some e.value else none
  | none => none

/-- node-cache `set`. -/
def memSet (mem : List (String × MemEntry)) (now : Nat) (key : String) (v : Value) (ttl : Int) : List (String × MemEntry) :=
  alistPut mem key { value := v, expireAt := memLivetime now ttl }

/-- redis GET on a healthy connection: the payload if present and unexpired,
otherwise null (absent). -/
def remoteGet (conn : RedisConn) (now : Nat) (key : String) : Option (List Char) :=
  match alistGet conn.store key with
  | some e => if (now : Int) < e.expireAt then some e.payload else none
  | none => none

/-- Startup of `middleware/cache.js`: memoryCache empty; redisClient is
created only when REDIS_URL is set, and is reset to null when the `connect()`
call fails. -/
def initCache (redisUrl : Option String) (connectOk : Bool) : CacheState :=
  match redisUrl with
  | none => { mem := [], redis := none }
  | some _ =>
    if connectOk then { mem := [], redis := some { failing := false, store := [] } }
    else { mem := [], redis := none }

/-- The remote phase of `CacheService.get`, reached when the memory lookup
produced no truthy value: `if (redisClient) { const redisResult = await
redisClient.get(key); if (redisResult) { const parsed = JSON.parse(redisResult);
memoryCache.set(key, parsed, 60); return parsed; } } return null;`.
A failing connection makes the awaited GET reject, which propagates.  A hit
is promoted into the memory cache with a 60 second TTL. -/
def getRemotePhase (st : CacheState) (now : Nat) (key : String) : CacheState × Except String Value :=
  match st.redis with
  | none => (st, Except.ok Value.vnull)
  | some conn =>
    if conn.failing then (st, Except.error "redis get failed")
    else
      match remoteGet conn now key with
      | none => (st, Except.ok Value.vnull)
      | some s =>
        if s = [] then (st, Except.ok Value.vnull)
        else
          match jsonParse s with
          | Except.error m => (st, Except.error m)
          | Except.ok parsed =>
            ({ st with mem := memSet st.mem now key parsed 60 }, Except.ok parsed)

namespace CacheService

/-- `CacheService.get(key)`: try the memory cache first and return its result
when truthy (`if (memoryResult) return memoryResult;` — a stored falsy value
falls through); otherwise consult redis, promoting a remote hit; a miss
returns null (`Value.vnull`). -/
def get (st : CacheState) (now : Nat) (key : String) : CacheState × Except String Value :=
  match memGetRaw st.mem now key with
  | some v => if truthy v then (st, Except.ok v) else getRemotePhase st now key
  | none => getRemotePhase st now key

/-- `CacheService.set(key, value, ttl = 300)`: store in the memory cache,
then, when a redis client exists, `await redisClient.setex(key, ttl,
JSON.stringify(value))`.  On the pinned node-redis v4 client `setex` is
undefined (it is the v3 method name; v4 has only `setEx`/`SETEX`), so this
call throws a TypeError whenever a client exists, healthy or not; the memory
write has already happened when that rejection propagates, and the remote
store is left untouched. -/
def set (st : CacheState) (now : Nat) (key : String) (value : Value) (ttl : Int) : CacheState × Except String Unit :=
  let mem2 := memSet st.mem now key value ttl
  match st.redis with
  | none => ({ mem := mem2, redis := none }, Except.ok ())
  | some conn =>
    ({ mem := mem2, redis := some conn },
     Except.error "TypeError: redisClient.setex is not a function")

/-- `CacheService.set` with its default ttl of 300 seconds. -/
def setDefault (st : CacheState) (now : Nat) (key : String) (value : Value) : CacheState × Except String Unit :=
  set st now key value 300

/-- `CacheService.delete(key)`: remove from the memory cache; the redis DEL is
issued without `await` (fire-and-forget), so a rejection never reaches the
caller — on a failing connection the remote store is simply left unchanged. -/
def delete (st : CacheState) (key : String) : CacheState :=
  let mem2 := alistDel st.mem key
  match st.redis with
  | none => { mem := mem2, redis := none }
  | some conn =>
    if conn.failing then { mem := mem2, redis := some conn }
    else { mem := mem2, redis := some { conn with store := alistDel conn.store key } }

end CacheService

/-- The cache key the middleware derives from the request. -/
def cacheKey (originalUrl : String) : String := "cache:" ++ originalUrl

/-- The outcome of one request through `cacheMiddleware`: what the original
caller receives, how many times the wrapped handler produced a value, and the
cache state afterwards. -/
structure MemoOutcome where
  response : Except String Value
  produceCalls : Nat
  state : CacheState

/-- What the wrapped handler (the "produce" operation) does on this request:
either it emits a successful value via `res.json`, or it fails. -/
inductive HandlerResult where
  | success : Value → HandlerResult
  | failure : String → HandlerResult

/-- `cacheMiddleware(duration = 300)` from `src/PERFORMANCE_OPTIMIZATION.md`:
look the key up; on a truthy cached value answer from the cache without
invoking the handler; otherwise override `res.json` so a successful handler
output is written to the cache (the un-awaited `CacheService.set`, whose
rejection is dropped) and then sent; a handler failure is propagated
unchanged and nothing is cached.  If the `await CacheService.get` throws, the
`catch` block calls `next()` without overriding `res.json`, so the handler
runs and its output is not cached. -/
def cacheMiddleware (duration : Int) (key : String) (handler : HandlerResult) (st : CacheState) (now : Nat) : MemoOutcome :=
  match CacheService.get st now key with
  | (st1, Except.error _) =>
    match handler with
    | HandlerResult.success v => { response := Except.ok v, produceCalls := 1, state := st1 }
    | HandlerResult.failure e => { response := Except.error e, produceCalls := 1, state := st1 }
  | (st1, Except.ok cached) =>
    if truthy cached then { response := Except.ok cached, produceCalls := 0, state := st1 }
    else
      match handler with
      | HandlerResult.success v =>
        { response := Except.ok v, produceCalls := 1, state := (CacheService.set st1 now key v duration).1 }
      | HandlerResult.failure e => { response := Except.error e, produceCalls := 1, state := st1 }

/-- The memory lookup as `CacheService.get` uses it: a stored falsy value is
indistinguishable from a miss (`if (memoryResult)`). -/
def memGetTruthy (st : CacheState) (now : Nat) (key : String) : Option Value :=
  match memGetRaw st.mem now key with
  | some v => if truthy v then some v else none
  | none => none

/-! ## Concrete fixture states used by the witnesses -/

/-- The scenario value of spec section 8. -/
def adaValue : Value := Value.vobj [("name", Value.vstr "Ada")]

/-- A healthy redis connection holding the serialized `adaValue` under
"user:42" with five minutes left. -/
def c6Conn : RedisConn :=
  { failing := false
    store := [("user:42", { payload := jsonStringify adaValue, expireAt := 300000 })] }

/-- Remote-populated, locally empty cache state. -/
def c6State : CacheState := { mem := [], redis := some c6Conn }

/-- A locally-empty cache over a healthy connected client with an empty
remote store. -/
def healthyEmptyState : CacheState := { mem := [], redis := some { failing := false, store := [] } }

/-! ## Helper lemmas -/

theorem alistGet_put_self {α : Type} (l : List (String × α)) (k : String) (a : α) :
    alistGet (alistPut l k a) k = some a := by
  induction l with
  | nil => simp [alistPut, alistGet]
  | cons hd tl ih =>
    obtain ⟨k2, b⟩ := hd
    by_cases h : k2 = k
    · simp [alistPut, alistGet, h]
    · simp [alistPut, alistGet, h, ih]

theorem alistGet_del_self {α : Type} (l : List (String × α)) (k : String) :
    alistGet (alistDel l k) k = none := by
  induction l with
  | nil => simp [alistDel, alistGet]
  | cons hd tl ih =>
    obtain ⟨k2, b⟩ := hd
    by_cases h : k2 = k
    · simp [alistDel, h, ih]
    · simp [alistDel, alistGet, h, ih]

theorem alistDel_del (α : Type) (l : List (String × α)) (k : String) :
    alistDel (alistDel l k) k = alistDel l k := by
  induction l with
  | nil => simp [alistDel]
  | cons hd tl ih =>
    obtain ⟨k2, b⟩ := hd
    by_cases h : k2 = k
    · simp [alistDel, h, ih]
    · simp [alistDel, h, ih]

theorem memGetRaw_set_self (mem : List (String × MemEntry)) (now : Nat) (k : String) (v : Value) (ttl : Int) (h : 0 < ttl) :
    memGetRaw (memSet mem now k v ttl) now k = some v := by
  have hne : ¬ ttl = 0 := by omega
  simp [memGetRaw, memSet, alistGet_put_self, memLivetime, hne]
  omega

theorem get_of_memMiss (st : CacheState) (now : Nat) (k : String)
    (hm : memGetTruthy st now k = none) :
    CacheService.get st now k = getRemotePhase st now k := by
  unfold CacheService.get
  unfold memGetTruthy at hm
  cases hraw : memGetRaw st.mem now k with
  | none => simp [hraw]
  | some v =>
    rw [hraw] at hm
    cases ht : truthy v with
    | false => simp [hraw, ht]
    | true => simp [ht] at hm

theorem getRemotePhase_of_none (st : CacheState) (now : Nat) (k : String)
    (h : st.redis = none) :
    getRemotePhase st now k = (st, Except.ok Value.vnull) := by
  unfold getRemotePhase
  rw [h]

theorem set_of_none (st : CacheState) (now : Nat) (k : String) (v : Value) (ttl : Int)
    (h : st.redis = none) :
    CacheService.set st now k v ttl
      = ({ mem := memSet st.mem now k v ttl, redis := none }, Except.ok ()) := by
  unfold CacheService.set
  rw [h]

theorem set_mem_eq (st : CacheState) (now : Nat) (k : String) (v : Value) (ttl : Int) :
    (CacheService.set st now k v ttl).1.mem = memSet st.mem now k v ttl := by
  unfold CacheService.set
  cases h : st.redis with
  | none => rfl
  | some conn => rfl

/-- Claim C1 amended: after Set(k, v, ttl) with ttl > 0 and a truthy v, an
immediate Get(k) returns v, whatever the redis tier did. -/
theorem C1_set_then_get (st : CacheState) (now : Nat) (k : String) (v : Value) (ttl : Int)
    (httl : 0 < ttl) (hv : truthy v = true) :
    (CacheService.get (CacheService.set st now k v ttl).1 now k).2 = Except.ok v := by
  unfold CacheService.get
  rw [set_mem_eq, memGetRaw_set_self st.mem now k v ttl httl]
  simp [hv]

theorem C1_witness :
    0 < (300 : Int) ∧ truthy (Value.vstr "x") = true ∧
    (CacheService.get (CacheService.set (initCache none true) 0 "k" (Value.vstr "x") 300).1 0 "k").2
      = Except.ok (Value.vstr "x") :=
  ⟨by decide, by decide,
    C1_set_then_get (initCache none true) 0 "k" (Value.vstr "x") 300 (by decide) (by decide)⟩

/-- Claim C1 as stated fails: with no redis tier, Set("k", false, 300)
followed immediately by Get("k") returns null, not false, because
CacheService.get's truthiness test treats the stored falsy value as a miss. -/
theorem C1_counterexample :
    (CacheService.get (CacheService.set (initCache none true) 0 "k" (Value.vbool false) 300).1 0 "k").2
      = Except.ok Value.vnull ∧ Value.vnull ≠ Value.vbool false :=
  ⟨rfl, fun h => Value.noConfusion h⟩

/-- Claim C2 amended: a failing remote connection makes Get(k) propagate the
redis error to its caller whenever the memory tier has no truthy value for k
(there is no try/catch in CacheService.get); the state is unchanged. -/
theorem C2_remote_get_failure_propagates (st : CacheState) (now : Nat) (k : String) (conn : RedisConn)
    (hr : st.redis = some conn) (hf : conn.failing = true) (hm : memGetTruthy st now k = none) :
    CacheService.get st now k = (st, Except.error "redis get failed") := by
  rw [get_of_memMiss st now k hm]
  unfold getRemotePhase
  rw [hr]
  simp [hf]

theorem C2_witness :
    ({ mem := [], redis := some { failing := true, store := [] } } : CacheState).redis
        = some { failing := true, store := [] } ∧
    ({ failing := true, store := [] } : RedisConn).failing = true ∧
    memGetTruthy { mem := [], redis := some { failing := true, store := [] } } 0 "k" = none ∧
    CacheService.get { mem := [], redis := some { failing := true, store := [] } } 0 "k"
      = ({ mem := [], redis := some { failing := true, store := [] } }, Except.error "redis get failed") :=
  ⟨rfl, rfl, rfl,
    C2_remote_get_failure_propagates { mem := [], redis := some { failing := true, store := [] } } 0 "k"
      { failing := true, store := [] } rfl rfl rfl⟩

/-- Claim C2 as stated fails: with a connected-but-failing remote tier and an
empty local tier, Get("k") rejects with the redis error instead of degrading
to a miss. -/
theorem C2_counterexample :
    (CacheService.get { mem := [], redis := some { failing := true, store := [] } } 0 "k").2
      = Except.error "redis get failed" := rfl

/-- Claim C3 amended: a ttl ≤ 0 is not rejected at the call boundary: the
local tier always stores the entry (with node-cache's livetime 0, "never
expires", when ttl = 0, and an already-past livetime when ttl < 0), and the
call as a whole succeeds exactly when no redis client exists (with one, the
awaited setex rejects — after the local write already happened). -/
theorem C3_nonpositive_ttl_not_rejected (st : CacheState) (now : Nat) (k : String) (v : Value) (ttl : Int)
    (httl : ttl ≤ 0) :
    alistGet (CacheService.set st now k v ttl).1.mem k
      = some { value := v, expireAt := memLivetime now ttl } ∧
    ((CacheService.set st now k v ttl).2 = Except.ok () ↔ st.redis = none) := by
  constructor
  · rw [set_mem_eq]
    exact alistGet_put_self st.mem k _
  · unfold CacheService.set
    cases hr : st.redis with
    | none => simp
    | some conn => simp

theorem C3_witness :
    (0 : Int) ≤ 0 ∧
    alistGet (CacheService.set (initCache none true) 7 "k" (Value.vint 9) 0).1.mem "k"
      = some { value := Value.vint 9, expireAt := memLivetime 7 0 } ∧
    ((CacheService.set (initCache none true) 7 "k" (Value.vint 9) 0).2 = Except.ok ()
      ↔ (initCache none true).redis = none) :=
  ⟨by decide,
    (C3_nonpositive_ttl_not_rejected (initCache none true) 7 "k" (Value.vint 9) 0 (by decide)).1,
    (C3_nonpositive_ttl_not_rejected (initCache none true) 7 "k" (Value.vint 9) 0 (by decide)).2⟩

/-- Claim C3 as stated fails: with no redis tier, Set("k", 7, 0) — a
non-positive ttl — returns success rather than a configuration error, and the
entry is stored and retrievable (livetime 0 means it never expires). -/
theorem C3_counterexample :
    (CacheService.set (initCache none true) 0 "k" (Value.vint 7) 0).2 = Except.ok () ∧
    (CacheService.get (CacheService.set (initCache none true) 0 "k" (Value.vint 7) 0).1 0 "k").2
      = Except.ok (Value.vint 7) :=
  ⟨rfl, rfl⟩

/-- Claim C4 amended: with no redis tier and no live local entry for k,
calling the memoizing middleware twice in sequence with a handler producing a
truthy value v invokes the handler exactly once: the first call produces,
caches and returns v, the second answers v from the cache without invoking
the handler.  (A falsy produced value is re-produced on every call.) -/
theorem C4_memoize_miss_then_hit (st : CacheState) (now : Nat) (k : String) (v : Value) (d : Int)
    (hd : 0 < d) (hv : truthy v = true) (hm : memGetTruthy st now k = none) (hr : st.redis = none) :
    (cacheMiddleware d k (HandlerResult.success v) st now).produceCalls = 1 ∧
    (cacheMiddleware d k (HandlerResult.success v) st now).response = Except.ok v ∧
    (cacheMiddleware d k (HandlerResult.success v)
        (cacheMiddleware d k (HandlerResult.success v) st now).state now).produceCalls = 0 ∧
    (cacheMiddleware d k (HandlerResult.success v)
        (cacheMiddleware d k (HandlerResult.success v) st now).state now).response = Except.ok v := by
  have hget : CacheService.get st now k = (st, Except.ok Value.vnull) := by
    rw [get_of_memMiss st now k hm, getRemotePhase_of_none st now k hr]
  have h1 : cacheMiddleware d k (HandlerResult.success v) st now
      = { response := Except.ok v, produceCalls := 1,
          state := (CacheService.set st now k v d).1 } := by
    unfold cacheMiddleware
    rw [hget]
    simp [truthy]
  have hmem : memGetRaw (CacheService.set st now k v d).1.mem now k = some v := by
    rw [set_mem_eq]
    exact memGetRaw_set_self st.mem now k v d hd
  have h2 : cacheMiddleware d k (HandlerResult.success v) (CacheService.set st now k v d).1 now
      = { response := Except.ok v, produceCalls := 0, state := (CacheService.set st now k v d).1 } := by
    unfold cacheMiddleware CacheService.get
    rw [hmem]
    simp [hv]
  rw [h1]
  simp [h2]

theorem C4_witness :
    0 < (300 : Int) ∧ truthy (Value.vstr "r") = true ∧
    memGetTruthy (initCache none true) 5 (cacheKey "/api/surveys") = none ∧
    (initCache none true).redis = none ∧
    (cacheMiddleware 300 (cacheKey "/api/surveys") (HandlerResult.success (Value.vstr "r"))
        (initCache none true) 5).produceCalls = 1 ∧
    (cacheMiddleware 300 (cacheKey "/api/surveys") (HandlerResult.success (Value.vstr "r"))
        (cacheMiddleware 300 (cacheKey "/api/surveys") (HandlerResult.success (Value.vstr "r"))
          (initCache none true) 5).state 5).produceCalls = 0 := by
  have h := C4_memoize_miss_then_hit (initCache none true) 5 (cacheKey "/api/surveys")
    (Value.vstr "r") 300 (by decide) (by decide) (by rfl) (by rfl)
  exact ⟨by decide, by decide, rfl, rfl, h.1, h.2.2.1⟩

/-- Claim C4 as stated fails: a handler producing the falsy value `false` is
invoked again by the second middleware call — the cached falsy value is
indistinguishable from a miss — so "produce" runs twice, not once. -/
theorem C4_counterexample :
    (cacheMiddleware 300 "k" (HandlerResult.success (Value.vbool false)) (initCache none true) 0).produceCalls
      = 1 ∧
    (cacheMiddleware 300 "k" (HandlerResult.success (Value.vbool false))
        (cacheMiddleware 300 "k" (HandlerResult.success (Value.vbool false)) (initCache none true) 0).state
        0).produceCalls = 1 :=
  ⟨rfl, rfl⟩

/-- Claim C5: when the lookup comes back non-truthy without throwing, a
failing handler has its error propagated unchanged to the caller, the cache
state is untouched (the set only happens inside the res.json interception of
a successful output), and a following identical call invokes the handler
again. -/
theorem C5_produce_error_propagates (st : CacheState) (now : Nat) (k : String) (e : String) (d : Int) (w : Value)
    (hget : CacheService.get st now k = (st, Except.ok w)) (hw : truthy w = false) :
    (cacheMiddleware d k (HandlerResult.failure e) st now).response = Except.error e ∧
    (cacheMiddleware d k (HandlerResult.failure e) st now).produceCalls = 1 ∧
    (cacheMiddleware d k (HandlerResult.failure e) st now).state = st ∧
    (cacheMiddleware d k (HandlerResult.failure e)
        (cacheMiddleware d k (HandlerResult.failure e) st now).state now).produceCalls = 1 := by
  have h1 : cacheMiddleware d k (HandlerResult.failure e) st now
      = { response := Except.error e, produceCalls := 1, state := st } := by
    unfold cacheMiddleware
    rw [hget]
    simp [hw]
  rw [h1]
  simp [h1]

theorem C5_witness :
    CacheService.get (initCache none true) 0 "k" = (initCache none true, Except.ok Value.vnull) ∧
    truthy Value.vnull = false ∧
    (cacheMiddleware 300 "k" (HandlerResult.failure "boom") (initCache none true) 0).response
      = Except.error "boom" ∧
    (cacheMiddleware 300 "k" (HandlerResult.failure "boom") (initCache none true) 0).state
      = initCache none true ∧
    (cacheMiddleware 300 "k" (HandlerResult.failure "boom")
        (cacheMiddleware 300 "k" (HandlerResult.failure "boom") (initCache none true) 0).state
        0).produceCalls = 1 := by
  have h := C5_produce_error_propagates (initCache none true) 0 "k" "boom" 300 Value.vnull rfl rfl
  exact ⟨rfl, rfl, h.1, h.2.2.1, h.2.2.2⟩

theorem natChars_ne_nil (f n : Nat) : natChars (f + 1) n ≠ [] := by
  unfold natChars
  split <;> simp

theorem intChars_ne_nil (n : Int) : intChars n ≠ [] := by
  unfold intChars
  split
  · simp
  · exact natChars_ne_nil _ _

theorem jsonStringify_ne_nil (v : Value) : jsonStringify v ≠ [] := by
  cases v with
  | vnull => simp [jsonStringify]
  | vbool b => cases b <;> simp [jsonStringify]
  | vint n => simpa [jsonStringify] using intChars_ne_nil n
  | vstr s => simp [jsonStringify, strLitChars]
  | varr xs => simp [jsonStringify]
  | vobj fs => simp [jsonStringify]

/-- Claim C6: a remote hit for k (payload JSON.stringify(v), unexpired) with
no truthy local value is promoted: Get(k) returns v and writes v into the
memory tier with the 60-second promotion TTL (livetime now + 60*1000 ms). -/
theorem C6_promotion (st : CacheState) (conn : RedisConn) (now : Nat) (k : String) (v : Value) (exp : Int)
    (hr : st.redis = some conn) (hf : conn.failing = false)
    (hm : memGetTruthy st now k = none)
    (hs : alistGet conn.store k = some { payload := jsonStringify v, expireAt := exp })
    (hexp : (now : Int) < exp)
    (hparse : jsonParse (jsonStringify v) = Except.ok v) :
    (CacheService.get st now k).2 = Except.ok v ∧
    alistGet (CacheService.get st now k).1.mem k
      = some { value := v, expireAt := (now : Int) + 60 * 1000 } := by
  have hrg : remoteGet conn now k = some (jsonStringify v) := by
    unfold remoteGet
    rw [hs]
    simp [hexp]
  have hget : CacheService.get st now k
      = ({ st with mem := memSet st.mem now k v 60 }, Except.ok v) := by
    rw [get_of_memMiss st now k hm]
    unfold getRemotePhase
    rw [hr]
    simp [hf, hrg, jsonStringify_ne_nil v, hparse]
  rw [hget]
  refine ⟨rfl, ?_⟩
  simp [memSet, memLivetime, alistGet_put_self]


theorem C6_witness :
    jsonParse (jsonStringify adaValue) = Except.ok adaValue ∧
    (CacheService.get c6State 0 "user:42").2 = Except.ok adaValue ∧
    alistGet (CacheService.get c6State 0 "user:42").1.mem "user:42"
      = some { value := adaValue, expireAt := (0 : Int) + 60 * 1000 } := by
  have h := C6_promotion c6State c6Conn 0 "user:42" adaValue 300000
    rfl rfl rfl (by rfl) (by decide) (by rfl)
  exact ⟨by rfl, h.1, h.2⟩

/-- Claim C7 amended: Set stores in the memory tier first, but the remote
write is awaited, not best-effort: whenever a redis client exists the
`redisClient.setex(...)` call rejects (on the pinned node-redis v4 client the
v3-named `setex` is undefined, a TypeError), and Set propagates the rejection
to the caller even though the local entry was already stored. -/
theorem C7_set_remote_failure_propagates (st : CacheState) (now : Nat) (k : String) (v : Value) (ttl : Int)
    (conn : RedisConn) (hr : st.redis = some conn) :
    (CacheService.set st now k v ttl).2
      = Except.error "TypeError: redisClient.setex is not a function" ∧
    alistGet (CacheService.set st now k v ttl).1.mem k
      = some { value := v, expireAt := memLivetime now ttl } := by
  constructor
  · unfold CacheService.set
    rw [hr]
  · rw [set_mem_eq]
    exact alistGet_put_self st.mem k _

theorem C7_witness :
    healthyEmptyState.redis = some { failing := false, store := [] } ∧
    (CacheService.set healthyEmptyState 0 "k" (Value.vint 1) 300).2
      = Except.error "TypeError: redisClient.setex is not a function" ∧
    alistGet (CacheService.set healthyEmptyState 0 "k" (Value.vint 1) 300).1.mem "k"
      = some { value := Value.vint 1, expireAt := memLivetime 0 300 } := by
  have h := C7_set_remote_failure_propagates healthyEmptyState 0 "k" (Value.vint 1) 300
    { failing := false, store := [] } rfl
  exact ⟨rfl, h.1, h.2⟩

/-- Claim C7 as stated fails: even with a healthy connected remote client the
awaited setex call rejects (the v3 method name is undefined on the v4
client), so Set does not return as if successful. -/
theorem C7_counterexample :
    (CacheService.set { mem := [], redis := some { failing := false, store := [] } } 0 "k" (Value.vint 1) 300).2
      = Except.error "TypeError: redisClient.setex is not a function" := rfl

theorem get_of_redis_none (st : CacheState) (now : Nat) (k : String) (h : st.redis = none) :
    ∃ w, CacheService.get st now k = (st, Except.ok w) := by
  unfold CacheService.get
  cases hraw : memGetRaw st.mem now k with
  | none => exact ⟨Value.vnull, by simp [getRemotePhase_of_none st now k h]⟩
  | some w =>
    by_cases ht : truthy w
    · exact ⟨w, by simp [ht]⟩
    · exact ⟨Value.vnull, by simp [ht, getRemotePhase_of_none st now k h]⟩

/-- Claim C8: a startup connection failure leaves redisClient null —
`initCache (some url) false` starts disabled — and the disabled state is an
invariant: Get, Set and Delete all keep it and return successfully with
local-only semantics, never re-attempting the remote tier. -/
theorem C8_disabled_state_is_permanent (st : CacheState) (now : Nat) (k : String) (v : Value) (ttl : Int)
    (url : String) (h : st.redis = none) :
    (initCache (some url) false).redis = none ∧
    (CacheService.get st now k).1.redis = none ∧
    (∃ w, (CacheService.get st now k).2 = Except.ok w) ∧
    (CacheService.set st now k v ttl).1.redis = none ∧
    (CacheService.set st now k v ttl).2 = Except.ok () ∧
    (CacheService.delete st k).redis = none := by
  obtain ⟨w, hw⟩ := get_of_redis_none st now k h
  refine ⟨rfl, ?_, ⟨w, ?_⟩, ?_, ?_, ?_⟩
  · rw [hw]
    exact h
  · rw [hw]
  · rw [set_of_none st now k v ttl h]
  · rw [set_of_none st now k v ttl h]
  · unfold CacheService.delete
    rw [h]

theorem C8_witness :
    (initCache (some "redis://x") false).redis = none ∧
    (CacheService.get (initCache (some "redis://x") false) 0 "k").1.redis = none ∧
    (∃ w, (CacheService.get (initCache (some "redis://x") false) 0 "k").2 = Except.ok w) ∧
    (CacheService.set (initCache (some "redis://x") false) 0 "k" (Value.vint 3) 300).1.redis = none ∧
    (CacheService.set (initCache (some "redis://x") false) 0 "k" (Value.vint 3) 300).2 = Except.ok () ∧
    (CacheService.delete (initCache (some "redis://x") false) "k").redis = none :=
  C8_disabled_state_is_permanent (initCache (some "redis://x") false) 0 "k" (Value.vint 3) 300
    "redis://x" rfl

/-- Claim C9: Delete is idempotent (a second delete of the same key is a
no-op, and the model's delete is total — it never errors), the local tier has
no entry for k afterwards, and in local-only mode Get(k) after Delete(k)
returns the miss value null. -/
theorem C9_delete_idempotent_get_misses (st : CacheState) (now : Nat) (k : String) :
    CacheService.delete (CacheService.delete st k) k = CacheService.delete st k ∧
    alistGet (CacheService.delete st k).mem k = none ∧
    (st.redis = none →
      CacheService.get (CacheService.delete st k) now k
        = (CacheService.delete st k, Except.ok Value.vnull)) := by
  refine ⟨?_, ?_, ?_⟩
  · unfold CacheService.delete
    cases hr : st.redis with
    | none => simp [alistDel_del]
    | some conn => by_cases hf : conn.failing <;> simp [hf, alistDel_del]
  · unfold CacheService.delete
    cases hr : st.redis with
    | none => simp [alistGet_del_self]
    | some conn => by_cases hf : conn.failing <;> simp [hf, alistGet_del_self]
  · intro h
    have hdel : CacheService.delete st k = { mem := alistDel st.mem k, redis := none } := by
      unfold CacheService.delete
      rw [h]
    have hm : memGetTruthy { mem := alistDel st.mem k, redis := none } now k = none := by
      simp [memGetTruthy, memGetRaw, alistGet_del_self]
    rw [hdel, get_of_memMiss _ now k hm, getRemotePhase_of_none _ now k rfl]

theorem C9_witness :
    CacheService.delete (CacheService.delete { mem := [("k", { value := Value.vint 4, expireAt := 0 })], redis := none } "k") "k"
      = CacheService.delete { mem := [("k", { value := Value.vint 4, expireAt := 0 })], redis := none } "k" ∧
    alistGet (CacheService.delete { mem := [("k", { value := Value.vint 4, expireAt := 0 })], redis := none } "k").mem "k" = none ∧
    CacheService.get (CacheService.delete { mem := [("k", { value := Value.vint 4, expireAt := 0 })], redis := none } "k") 0 "k"
      = (CacheService.delete { mem := [("k", { value := Value.vint 4, expireAt := 0 })], redis := none } "k", Except.ok Value.vnull) := by
  have h := C9_delete_idempotent_get_misses
    { mem := [("k", { value := Value.vint 4, expireAt := 0 })], redis := none } 0 "k"
  exact ⟨h.1, h.2.1, h.2.2 rfl⟩

/-- Claim C10 describes the code's evident intent (the "Set in Redis if
available" comment and the symmetric JSON.parse in get), but the code has a
bug: on the pinned node-redis v4 client the v3-named `setex` is undefined, so
Set with an active remote tier rejects with a TypeError after the memory
write and never stores JSON.stringify(v) remotely.  At the failing input,
Set("user:42", adaValue, 300) over a healthy connected client errors, leaves
the remote store empty, and a later Get from a locally-empty cache sharing
that remote tier returns the miss value null — not
JSON.parse(JSON.stringify(adaValue)), which is adaValue itself. -/
theorem C10_set_never_populates_remote :
    (CacheService.set healthyEmptyState 0 "user:42" adaValue 300).2
      = Except.error "TypeError: redisClient.setex is not a function" ∧
    (CacheService.set healthyEmptyState 0 "user:42" adaValue 300).1.redis
      = some { failing := false, store := [] } ∧
    (CacheService.get
        { mem := [], redis := (CacheService.set healthyEmptyState 0 "user:42" adaValue 300).1.redis }
        0 "user:42").2 = Except.ok Value.vnull ∧
    jsonParse (jsonStringify adaValue) = Except.ok adaValue ∧
    Value.vnull ≠ adaValue :=
  ⟨rfl, rfl, rfl, rfl, fun h => Value.noConfusion h⟩
